import Mathlib

/-!
Verification of the Gradio face-processing application (`app.py`): a shallow
embedding of its deepfake-detection orchestration, artifact discovery and
report generation, with theorems about the frozen behavioural claims.

Python machine floats are embedded as rationals; every numeric value
reachable in the claims (0.5 base weights, their sums and quotients,
slider thresholds) is dyadic, where double arithmetic is exact and agrees
with rational arithmetic. The filesystem is embedded as the list of
existing file paths, and each external collaborator call as an
`Except String _` outcome (`error` embeds the Python exception caught by
the surrounding `try`/`except`).
-/

namespace MukhApp

/-! ## Path helpers (models of `os.path` on the relative, `/`-joined paths
used by the application). -/

/-- Model of `os.path.basename`: the part after the last slash. -/
def basename (p : String) : String :=
  String.mk ((p.data.reverse.takeWhile (fun c => c ≠ '/')).reverse)

/-- Model of `os.path.dirname` for relative paths: the part before the last
slash, empty when there is no slash. -/
def dirname (p : String) : String :=
  if p.data.contains '/' then
    String.mk (((p.data.reverse.dropWhile (fun c => c ≠ '/')).drop 1).reverse)
  else ""

/-- Model of `os.path.splitext` on a basename: split at the last dot, except
that a run of leading dots never starts an extension. -/
def splitext (name : String) : String × String :=
  let cs := name.data
  let extRev := cs.reverse.takeWhile (fun c => c ≠ '.')
  if extRev.length = cs.length then (name, "")
  else
    let stemLen := cs.length - extRev.length - 1
    let stem := cs.take stemLen
    if stem.all (fun c => c = '.') then (name, "")
    else (String.mk stem, String.mk (cs.drop stemLen))

/-! ## Numeric rendering (models of CPython `format` on the exact rational
value; all values rendered by the application have short terminating
decimal expansions, where this agrees with CPython float formatting). -/

/-- Round to the nearest integer, ties to the even integer (the rounding
CPython's fixed-point formatting applies to the decimal digits). -/
def roundHalfEven (q : ℚ) : ℤ :=
  let f := ⌊q⌋
  let r := q - (f : ℚ)
  if r < 1/2 then f
  else if 1/2 < r then f + 1
  else if f % 2 = 0 then f else f + 1

/-- Model of CPython `format(q, ".<d>f")`: fixed-point with `d` decimals. -/
def fixedDigits (d : ℕ) (q : ℚ) : String :=
  let scaled := roundHalfEven (q * (10 : ℚ) ^ d)
  let sign := if scaled < 0 then "-" else ""
  let n := scaled.natAbs
  let ip := n / 10 ^ d
  let fp := n % 10 ^ d
  if d = 0 then sign ++ toString ip
  else
    let fs := toString fp
    sign ++ toString ip ++ "." ++ String.mk (List.replicate (d - fs.length) '0') ++ fs

/-- Model of CPython `format(q, ".1%")`. -/
def formatPercent1 (q : ℚ) : String :=
  fixedDigits 1 (q * 100) ++ "%"

/-- Model of Python `int(q)`: truncation toward zero. -/
def ratTrunc (q : ℚ) : ℤ :=
  if 0 ≤ q then ⌊q⌋ else ⌈q⌉

/-- Model of CPython `repr` on a float whose value has a short terminating
decimal expansion (the only floats the application ever prints this way):
the shortest fixed-point form with at least one decimal. -/
def pyFloatRepr (q : ℚ) : String :=
  let d := (((List.range 18).filter
    (fun k => decide (1 ≤ k) && ((q * (10 : ℚ) ^ k).den == 1))).head?).getD 17
  fixedDigits d q

/-! ## Deepfake detection: model weights (`detect_deepfakes`, lines 237-255). -/

/-- The model-weight dictionary built from the user's selection: each of the
two registered identifiers present in `models_to_use` is assigned its base
weight 0.5, in the code's insertion order. -/
def mkModelConfigs (models_to_use : List String) : List (String × ℚ) :=
  (if "resnet_inception" ∈ models_to_use then [("resnet_inception", (1 : ℚ)/2)] else [])
    ++ (if "efficientnet" ∈ models_to_use then [("efficientnet", (1 : ℚ)/2)] else [])

/-- `sum(model_configs.values())`. -/
def totalWeight (cfg : List (String × ℚ)) : ℚ :=
  (cfg.map Prod.snd).sum

/-- The normalization step: divide every weight by the total, guarded by
`if total_weight > 0`. -/
def normalizeConfigs (cfg : List (String × ℚ)) : List (String × ℚ) :=
  if 0 < totalWeight cfg then cfg.map (fun p => (p.1, p.2 / totalWeight cfg)) else cfg

/-! ## Deepfake detection: media selection (lines 224-234). -/

inductive MediaType where
  | image
  | video
  deriving DecidableEq

/-- `media_type.title()`. -/
def mediaTitle : MediaType → String
  | MediaType.image => "Image"
  | MediaType.video => "Video"

/-- The `elif video_file and os.path.exists(video_file)` branch. -/
def selectVideo (fs : List String) (video_file : Option String) :
    Option (String × MediaType) :=
  match video_file with
  | some q => if q ≠ "" ∧ q ∈ fs then some (q, MediaType.video) else none
  | none => none

/-- Lines 224-234: the image branch is tried first (`if image_file and
os.path.exists(image_file)`), the video branch only as its `elif`; `none`
is the `else` branch that reports the upload error. -/
def selectMedia (fs : List String) (image_file video_file : Option String) :
    Option (String × MediaType) :=
  match image_file with
  | some p => if p ≠ "" ∧ p ∈ fs then some (p, MediaType.image) else selectVideo fs video_file
  | none => selectVideo fs video_file

/-! ## Deepfake detection: report generation (lines 279-358). -/

/-- `get_confidence_bar` (lines 279-283). -/
def get_confidence_bar (confidence : ℚ) : String :=
  let width : ℕ := 20
  let filled : ℕ := (ratTrunc (confidence * 20)).toNat
  let bar := String.mk (List.replicate filled '█') ++ String.mk (List.replicate (width - filled) '░')
  "[" ++ bar ++ "] " ++ formatPercent1 confidence

/-- `get_risk_level` (lines 285-300). -/
def get_risk_level (confidence : ℚ) ( is_deepfake : Bool) : String :=
  if is_deepfake then
    if confidence ≥ 4/5 then "🔴 **HIGH RISK**"
    else if confidence ≥ 3/5 then "🟡 **MEDIUM RISK**"
    else "🟠 **LOW RISK**"
  else
    if confidence ≥ 4/5 then "🟢 **VERY CONFIDENT**"
    else if confidence ≥ 3/5 then "🟡 **CONFIDENT**"
    else "🟠 **UNCERTAIN**"

/-- Lines 309-313: the synthesized confidence — the threshold itself on a
deepfake verdict, `1 - threshold` on an authentic one. -/
def avgConfidence (overall_is_deepfake : Bool) (confidence_threshold : ℚ) : ℚ :=
  if overall_is_deepfake then confidence_threshold else 1 - confidence_threshold

/-- Python `repr` of the `model_configs` dict (insertion order preserved). -/
def dictRepr (cfg : List (String × ℚ)) : String :=
  "\x7b" ++ String.intercalate ", "
    (cfg.map (fun p => "\x27" ++ p.1 ++ "\x27: " ++ pyFloatRepr p.2)) ++ "\x7d"

/-- The `results_text` assembled on lines 315-358 for a completed job. -/
def resultsText (media_file : String) (media_type : MediaType) (models_to_use : List String)
    (model_configs : List (String × ℚ)) (confidence_threshold : ℚ) (num_frames : ℕ)
    (overall_is_deepfake : Bool) : String :=
  let overall_status := if overall_is_deepfake then "DEEPFAKE" else "AUTHENTIC"
  let overall_icon := if overall_is_deepfake then "🚨" else "✅"
  let avg_confidence := avgConfidence overall_is_deepfake confidence_threshold
  "# 🎬 **" ++ mediaTitle media_type ++ " Analysis Results**\n\n" ++
  "## 📊 **Summary**\n" ++
  "- **File**: `" ++ basename media_file ++ "`\n" ++
  "- **Media Type**: " ++ mediaTitle media_type ++ "\n" ++
  "- **Models Used**: " ++ String.intercalate ", " models_to_use ++ "\n" ++
  "- **Confidence Threshold**: " ++ formatPercent1 confidence_threshold ++ "\n\n" ++
  "---\n\n" ++
  "## 🎯 **Overall Verdict**\n" ++
  "### " ++ overall_icon ++ " **" ++ overall_status ++ "**\n\n" ++
  "**Pipeline Result**: " ++ get_confidence_bar avg_confidence ++ "\n\n" ++
  "---\n\n" ++
  "## 🔍 **Technical Details**\n" ++
  "- **Pipeline Models**: " ++ String.intercalate ", " (model_configs.map Prod.fst) ++ "\n" ++
  "- **Model Weights**: " ++ dictRepr model_configs ++ "\n" ++
  "- **Detection Algorithm**: Weighted Ensemble Pipeline\n" ++
  (if media_type = MediaType.video then
    "- **Frames Analyzed**: " ++ toString num_frames ++ "\n" else "") ++
  "\n\n---\n\n## 💡 **Recommendation**\n" ++
  (if overall_is_deepfake then
    "⚠️ **This media shows strong indicators of being a deepfake.** Exercise caution when sharing or believing its content."
  else
    "✅ **This media appears to be authentic.** However, always verify content from multiple sources.") ++
  "\n\n---\n\n## ℹ️ **About This Analysis**\n" ++
  "This analysis uses multiple state-of-the-art AI models in an ensemble pipeline to detect potential deepfakes. The pipeline combines predictions from " ++
  toString model_configs.length ++
  " models with weighted averaging for improved accuracy. While highly accurate, no detection system is 100% perfect. Always use critical thinking and verify important content through multiple sources.\n"

/-! ## Deepfake detection: the operation (lines 203-366). -/

def noMediaMsg : String := "❌ **Error**: Please upload either an image or video file"

def noModelsMsg : String :=
  "❌ **Error**: Please select at least one model to use for deepfake detection"

/-- The outer `except` handler of `detect_deepfakes` (line 366). -/
def pipelineErrMsg (e : String) : String := "❌ **Error**: " ++ e

/-- `GradioApp.detect_deepfakes`. `pipelineOutcome` is the outcome of the
single external pipeline call (`error e` embeds a raised exception, caught
by the surrounding `try`); `fs` is the set of existing paths. The first
component of the result is `annotated_media_path`, which the code fixes to
`None` (lines 275-276) and never recomputes. -/
def detect_deepfakes (fs : List String) (pipelineOutcome : Except String Bool)
    (image_file video_file : Option String) (models_to_use : List String)
    (confidence_threshold : ℚ) (num_frames : ℕ) : Option String × String :=
  match selectMedia fs image_file video_file with
  | none => (none, noMediaMsg)
  | some (media_file, media_type) =>
    let model_configs := mkModelConfigs models_to_use
    if model_configs = [] then (none, noModelsMsg)
    else
      match pipelineOutcome with
      | Except.error e => (none, pipelineErrMsg e)
      | Except.ok overall_is_deepfake =>
        (none, resultsText media_file media_type models_to_use
          (normalizeConfigs model_configs) confidence_threshold num_frames
          overall_is_deepfake)

/-! ## Artifact discovery: glob matching and the two locators. -/

/-- Glob matching with the `*` wildcard (the only wildcard appearing in the
application's patterns), on explicit fuel so that it is structural; the
fuel in `globMatch` strictly bounds the recursion depth. -/
def globMatchAux : ℕ → List Char → List Char → Bool
  | 0, _, _ => false
  | _ + 1, [], [] => true
  | _ + 1, [], _ :: _ => false
  | fuel + 1, '*' :: ps, [] => globMatchAux fuel ps []
  | fuel + 1, '*' :: ps, c :: cs =>
    globMatchAux fuel ps (c :: cs) || globMatchAux fuel ('*' :: ps) cs
  | _ + 1, _ :: _, [] => false
  | fuel + 1, p :: ps, c :: cs => p == c && globMatchAux fuel ps cs

def globMatch (pat s : String) : Bool :=
  globMatchAux (pat.length + s.length + 1) pat.data s.data

/-- Model of `glob.glob(os.path.join(dir, pat))`: the existing paths lying
directly in `dir` whose basename matches the pattern, in filesystem order. -/
def globDir (fs : List String) (dir pat : String) : List String :=
  fs.filter (fun p => dirname p == dir && globMatch pat (basename p))

/-- The `for pattern in comparison_patterns` loop (lines 183-187 and
192-196): first pattern with any match wins, taking that pattern's first
match (`comparison_files[0]`). -/
def searchCandidates (fs : List String) (dir : String) : List String → Option String
  | [] => none
  | pat :: rest =>
    match globDir fs dir pat with
    | [] => searchCandidates fs dir rest
    | f :: _ => some f

/-- `comparison_{source_name}_by_{driving_name}.mp4` — the exact TPS name. -/
def exactComparisonName (source_name driving_name : String) : String :=
  "comparison_" ++ source_name ++ "_by_" ++ driving_name ++ ".mp4"

/-- `comparison_{source_name}_by_*.mp4`. -/
def sourceComparisonGlob (source_name : String) : String :=
  "comparison_" ++ source_name ++ "_by_*.mp4"

/-- `comparison_*.mp4`. -/
def genericComparisonGlob : String := "comparison_*.mp4"

/-- `comparison_patterns` (lines 175-179), in priority order. -/
def comparisonCandidates (source_name driving_name : String) : List String :=
  [exactComparisonName source_name driving_name,
   sourceComparisonGlob source_name,
   genericComparisonGlob]

/-- Lines 183-196: search the output directory, and only if nothing matched
there (`if not comparison_path`), the directory of `result_path`. -/
def findComparison (fs : List String) (search_dir result_dir : String)
    (cands : List String) : Option String :=
  match searchCandidates fs search_dir cands with
  | some f => some f
  | none => searchCandidates fs result_dir cands

/-- `GradioApp.reenact_face`. `reenactOutcome` is the outcome of creating
the reenactor and running it (`ok` carries its returned `result_path`); the
bare `except` (lines 200-201) turns any raised exception into `(None,
None)`. -/
def reenact_face (fs : List String) (reenactOutcome : Except String String)
    (source_image driving_video : String) (reenactor_model : String) :
    Option String × Option String :=
  match reenactOutcome with
  | Except.error _ => (none, none)
  | Except.ok result_path =>
    let output_folder := "gradio_output/face_reenactment/" ++ reenactor_model
    let source_name := (splitext (basename source_image)).1
    let output_path := output_folder ++ "/" ++ source_name ++ "_reenacted"
    let driving_name := (splitext (basename driving_video)).1
    let comparison_path := findComparison fs output_path (dirname result_path)
      (comparisonCandidates source_name driving_name)
    (some result_path, comparison_path)

/-! ## Face detection (lines 35-123). -/

/-- The fields of a collaborator detection actually read by the code. -/
structure Detection where
  confidence : ℚ
  x1 : ℤ
  y1 : ℤ
  x2 : ℤ
  y2 : ℤ

/-- `possible_names` (lines 93-97), in priority order. -/
def annotatedCandidates (image_name : String) : List String :=
  let ne := splitext image_name
  [ne.1 ++ "_annotated" ++ ne.2, ne.1 ++ "_detected" ++ ne.2, ne.1 ++ "_detection" ++ ne.2]

/-- The `for possible_name in possible_names` loop body (lines 99-103):
take the first candidate name whose joined path exists, else keep `None`. -/
def findFirstExisting (fs : List String) (output_folder : String) :
    List String → Option String
  | [] => none
  | n :: rest =>
    if (output_folder ++ "/" ++ n) ∈ fs then some (output_folder ++ "/" ++ n)
    else findFirstExisting fs output_folder rest

/-- The annotated-image search of `detect_faces` (lines 86-103). -/
def findAnnotated (fs : List String) (output_folder image_name : String) : Option String :=
  findFirstExisting fs output_folder (annotatedCandidates image_name)

/-- One face's lines of `results_text` (lines 107-110). -/
def detectionLine (i : ℕ) (d : Detection) : String :=
  "Face " ++ toString (i + 1) ++ ":\n" ++
  "  Confidence: " ++ fixedDigits 3 d.confidence ++ "\n" ++
  "  Bounding Box: (" ++ toString d.x1 ++ ", " ++ toString d.y1 ++ ", " ++
  toString d.x2 ++ ", " ++ toString d.y2 ++ ")\n\n"

/-- `results_text` of `detect_faces` (lines 106-110). -/
def detectFacesText (detections : List Detection) : String :=
  "Found " ++ toString detections.length ++ " face(s)\n\n" ++
  String.join (detections.enum.map (fun p => detectionLine p.1 p.2))

/-- `GradioApp.detect_faces`. `createOutcome` embeds `FaceDetector.create`
(whose exception the inner `try` turns into the "Error creating detector"
message) and `detectOutcome` the `detector.detect` call (whose exception
the outer `except` turns into `"Error: ..."`). A found annotated path comes
from `fs` and is nonempty, so the code's re-check of its existence on
lines 113-117 is the identity and is not repeated here. -/
def detect_faces (fs : List String) (createOutcome : Except String Unit)
    (detectOutcome : Except String (List Detection)) (image_path : Option String)
    (detection_model : String) : Option String × Option String × String :=
  match image_path with
  | none => (none, none, "Error: No image provided")
  | some p =>
    if p = "" then (none, none, "Error: No image provided")
    else if p ∉ fs then (none, none, "Error: Image file not found: " ++ p)
    else
      match createOutcome with
      | Except.error e =>
        (none, none, "Error creating detector \x27" ++ detection_model ++ "\x27: " ++ e)
      | Except.ok _ =>
        match detectOutcome with
        | Except.error e => (none, none, "Error: " ++ e)
        | Except.ok detections =>
          let output_folder := "gradio_output/face_detection/" ++ detection_model
          let json_path := output_folder ++ "/detections.json"
          (findAnnotated fs output_folder (basename p),
           if json_path ∈ fs then some json_path else none,
           detectFacesText detections)

/-- Substring test used to state facts about report contents. -/
def containsSubAux (needle : List Char) : List Char → Bool
  | [] => needle.isEmpty
  | c :: rest => needle.isPrefixOf (c :: rest) || containsSubAux needle rest

def strContainsSub (hay needle : String) : Bool :=
  containsSubAux needle.data hay.data

/-! ## Theorems about the claims. -/

set_option maxRecDepth 100000

/-- The weight dictionary takes one of three concrete shapes once the
membership tests are decided. -/
theorem mkModelConfigs_cases (models : List String)
    (h : "resnet_inception" ∈ models ∨ "efficientnet" ∈ models) :
    mkModelConfigs models =
        [("resnet_inception", (1 : ℚ)/2), ("efficientnet", (1 : ℚ)/2)] ∨
      mkModelConfigs models = [("resnet_inception", (1 : ℚ)/2)] ∨
      mkModelConfigs models = [("efficientnet", (1 : ℚ)/2)] := by
  unfold mkModelConfigs
  by_cases h1 : "resnet_inception" ∈ models <;>
    by_cases h2 : "efficientnet" ∈ models <;>
    simp [h1, h2] at h ⊢

/-- Claim C1: whenever the selection contains at least one registered model
identifier, every selected registered model receives base weight 0.5, the
normalization divides each entry by the sum of the base weights, and the
normalized weights sum to exactly 1 — in particular to 1 within 1e-9. -/
theorem weight_normalization_sums_to_one (models : List String)
    (h : "resnet_inception" ∈ models ∨ "efficientnet" ∈ models) :
    mkModelConfigs models ≠ [] ∧
    (∀ p ∈ mkModelConfigs models, p.2 = 1/2) ∧
    normalizeConfigs (mkModelConfigs models) =
      (mkModelConfigs models).map
        (fun p => (p.1, p.2 / totalWeight (mkModelConfigs models))) ∧
    totalWeight (normalizeConfigs (mkModelConfigs models)) = 1 ∧
    |totalWeight (normalizeConfigs (mkModelConfigs models)) - 1| ≤ 1 / 1000000000 := by
  rcases mkModelConfigs_cases models h with hk | hk | hk <;>
    rw [hk] <;>
    refine ⟨by simp, by simp, ?_, ?_, ?_⟩ <;>
    norm_num [normalizeConfigs, totalWeight]

/-- Witness for C1: both registered models selected. -/
theorem weight_normalization_sums_to_one_witness :
    ("resnet_inception" ∈ ["resnet_inception", "efficientnet"] ∨
      "efficientnet" ∈ ["resnet_inception", "efficientnet"]) ∧
    totalWeight (normalizeConfigs (mkModelConfigs ["resnet_inception", "efficientnet"])) = 1 :=
  ⟨Or.inl (by decide),
    (weight_normalization_sums_to_one ["resnet_inception", "efficientnet"]
      (Or.inl (by decide))).2.2.2.1⟩

/-- Claim C2 counterexample: a request with no media and an empty model
selection fails with the media-upload message, not the no-models message. -/
theorem noModels_claim_counterexample :
    detect_deepfakes [] (Except.ok false) none none [] (1/2) 11 = (none, noMediaMsg) ∧
    noMediaMsg ≠ noModelsMsg :=
  ⟨rfl, by decide⟩

/-- Claim C2 (amended): for every request that passes media validation and
whose selection yields no registered model, the operation fails with the
no-models message; and the normalization step leaves a configuration with
nonpositive total untouched, so the failure precedes any division. -/
theorem noModels_error_after_media_validation
    (fs : List String) (pipe : Except String Bool) (img vid : Option String)
    (models : List String) (th : ℚ) (nf : ℕ) (m : String) (t : MediaType)
    (hmedia : selectMedia fs img vid = some (m, t))
    (hmodels : mkModelConfigs models = []) :
    detect_deepfakes fs pipe img vid models th nf = (none, noModelsMsg) ∧
    (∀ cfg : List (String × ℚ), totalWeight cfg ≤ 0 → normalizeConfigs cfg = cfg) := by
  constructor
  · unfold detect_deepfakes
    rw [hmedia]
    simp [hmodels]
  · intro cfg hcfg
    unfold normalizeConfigs
    rw [if_neg (not_lt.mpr hcfg)]

/-- Witness for C2 (amended): valid image, only an unregistered model. -/
theorem noModels_error_after_media_validation_witness :
    detect_deepfakes ["a.png"] (Except.ok false) (some "a.png") none
      ["unknown_model"] (1/2) 11 = (none, noModelsMsg) :=
  (noModels_error_after_media_validation ["a.png"] (Except.ok false) (some "a.png") none
    ["unknown_model"] (1/2) 11 "a.png" MediaType.image (by decide) (by decide)).1

/-- Claim C3: the synthesized confidence equals the threshold on a deepfake
verdict and `1 - threshold` on an authentic one; at threshold 1/2 both
verdicts give 1/2, and at threshold 4/5 a deepfake verdict gives 4/5. -/
theorem effective_confidence_formula (th : ℚ) :
    avgConfidence true th = th ∧
    avgConfidence false th = 1 - th ∧
    avgConfidence true (1/2) = 1/2 ∧
    avgConfidence false (1/2) = 1/2 ∧
    avgConfidence true (4/5) = 4/5 := by
  refine ⟨rfl, rfl, rfl, ?_, rfl⟩
  show (1 : ℚ) - 1/2 = 1/2
  norm_num

/-- Claim C10: the annotated-media component of every deepfake-detection
response is `none`, on every input and every collaborator outcome. -/
theorem annotated_media_always_none (fs : List String) (pipe : Except String Bool)
    (img vid : Option String) (models : List String) (th : ℚ) (nf : ℕ) :
    (detect_deepfakes fs pipe img vid models th nf).1 = none := by
  unfold detect_deepfakes
  cases h : selectMedia fs img vid with
  | none => rfl
  | some mt =>
    cases mt with
    | mk m t =>
      by_cases hc : mkModelConfigs models = []
      · simp [hc]
      · cases pipe <;> simp [hc]

/-- Claim C4 counterexample: a request supplying an existing image and an
existing video is not rejected — media selection succeeds with the image,
and the operation produces a report, not the validation message. -/
theorem both_media_rejection_counterexample :
    selectMedia ["a.png", "b.mp4"] (some "a.png") (some "b.mp4") =
      some ("a.png", MediaType.image) ∧
    (detect_deepfakes ["a.png", "b.mp4"] (Except.ok true) (some "a.png") (some "b.mp4")
      ["resnet_inception"] (1/2) 11).2 ≠ noMediaMsg :=
  ⟨by decide, by with_unfolding_all decide⟩

/-- Claim C4 (amended): supplying neither media input — or only paths that
do not exist — is a validation error and the request is rejected with the
upload message; supplying both is not rejected: media selection accepts
the image. -/
theorem media_validation_amended (fs : List String) (pipe : Except String Bool)
    (img vid : Option String) (models : List String) (th : ℚ) (nf : ℕ) :
    (selectMedia fs img vid = none →
      detect_deepfakes fs pipe img vid models th nf = (none, noMediaMsg)) ∧
    (∀ p, img = some p → p ≠ "" → p ∈ fs →
      selectMedia fs img vid = some (p, MediaType.image)) := by
  constructor
  · intro h
    unfold detect_deepfakes
    rw [h]
  · intro p hp hne hmem
    subst hp
    simp only [selectMedia]
    rw [if_pos ⟨hne, hmem⟩]

/-- Witness for C4 (amended): an absent-media request is rejected, and a
both-media request passes validation with the image. -/
theorem media_validation_amended_witness :
    detect_deepfakes [] (Except.ok false) none none ["resnet_inception"] (1/2) 11 =
      (none, noMediaMsg) ∧
    selectMedia ["a.png", "b.mp4"] (some "a.png") (some "b.mp4") =
      some ("a.png", MediaType.image) :=
  ⟨(media_validation_amended [] (Except.ok false) none none
      ["resnet_inception"] (1/2) 11).1 (by decide),
    (media_validation_amended ["a.png", "b.mp4"] (Except.ok false) (some "a.png")
      (some "b.mp4") ["resnet_inception"] (1/2) 11).2 "a.png" rfl (by decide) (by decide)⟩

/-- Claim C9: a supplied image that exists always wins media selection; the
whole response is then independent of the video input; and the video is
selected only when the image input is absent, empty or nonexistent. -/
theorem image_precedence_over_video (fs : List String) (pipe : Except String Bool)
    (img vid : Option String) (models : List String) (th : ℚ) (nf : ℕ) :
    (∀ p, img = some p → p ≠ "" → p ∈ fs →
      selectMedia fs img vid = some (p, MediaType.image) ∧
      ∀ vid', detect_deepfakes fs pipe img vid models th nf =
        detect_deepfakes fs pipe img vid' models th nf) ∧
    (∀ q, selectMedia fs img vid = some (q, MediaType.video) →
      (∀ r, img = some r → r = "" ∨ r ∉ fs) ∧ vid = some q ∧ q ≠ "" ∧ q ∈ fs) := by
  constructor
  · intro p hp hne hmem
    subst hp
    have hsel : ∀ v : Option String, selectMedia fs (some p) v = some (p, MediaType.image) := by
      intro v
      simp only [selectMedia]
      rw [if_pos ⟨hne, hmem⟩]
    refine ⟨hsel vid, fun vid' => ?_⟩
    unfold detect_deepfakes
    rw [hsel vid, hsel vid']
  · intro q hq
    have hvid : selectVideo fs vid = some (q, MediaType.video) ∧
        ∀ r, img = some r → r = "" ∨ r ∉ fs := by
      cases img with
      | none => exact ⟨hq, by simp⟩
      | some r =>
        simp only [selectMedia] at hq
        by_cases hr : r ≠ "" ∧ r ∈ fs
        · rw [if_pos hr] at hq
          simp at hq
        · rw [if_neg hr] at hq
          refine ⟨hq, fun r' hr' => ?_⟩
          cases hr'
          by_cases he : r = ""
          · exact Or.inl he
          · exact Or.inr (fun hmem => hr ⟨he, hmem⟩)
    refine ⟨hvid.2, ?_⟩
    have h2 := hvid.1
    cases vid with
    | none => simp [selectVideo] at h2
    | some q' =>
      simp only [selectVideo] at h2
      by_cases hq' : q' ≠ "" ∧ q' ∈ fs
      · rw [if_pos hq'] at h2
        have : q' = q := by simpa using h2
        subst this
        exact ⟨rfl, hq'.1, hq'.2⟩
      · rw [if_neg hq'] at h2
        exact absurd h2 (by simp)

/-- Witness for C9: both inputs exist; the image is selected and the
response does not change when the video input is dropped. -/
theorem image_precedence_over_video_witness :
    selectMedia ["a.png", "b.mp4"] (some "a.png") (some "b.mp4") =
      some ("a.png", MediaType.image) ∧
    detect_deepfakes ["a.png", "b.mp4"] (Except.ok true) (some "a.png") (some "b.mp4")
        ["efficientnet"] (1/2) 11 =
      detect_deepfakes ["a.png", "b.mp4"] (Except.ok true) (some "a.png") none
        ["efficientnet"] (1/2) 11 :=
  let h := (image_precedence_over_video ["a.png", "b.mp4"] (Except.ok true) (some "a.png")
    (some "b.mp4") ["efficientnet"] (1/2) 11).1 "a.png" rfl (by decide) (by decide)
  ⟨h.1, h.2 none⟩

/-- Claim C8: the report is a pure function of the media path, media kind,
model selection (with its derived normalized weights), threshold, frame
count and verdict — equal inputs give byte-identical report text. -/
theorem report_deterministic (m m' : String) (t t' : MediaType) (mu mu' : List String)
    (th th' : ℚ) (nf nf' : ℕ) (v v' : Bool)
    (h1 : m = m') (h2 : t = t') (h3 : mu = mu') (h4 : th = th') (h5 : nf = nf')
    (h6 : v = v') :
    resultsText m t mu (normalizeConfigs (mkModelConfigs mu)) th nf v =
      resultsText m' t' mu' (normalizeConfigs (mkModelConfigs mu')) th' nf' v' := by
  subst h1 h2 h3 h4 h5 h6
  rfl

/-- Witness for C8 at a concrete job. -/
theorem report_deterministic_witness :
    resultsText "a.png" MediaType.image ["resnet_inception"]
        (normalizeConfigs (mkModelConfigs ["resnet_inception"])) (1/2) 11 true =
      resultsText "a.png" MediaType.image ["resnet_inception"]
        (normalizeConfigs (mkModelConfigs ["resnet_inception"])) (1/2) 11 true :=
  report_deterministic "a.png" "a.png" MediaType.image MediaType.image
    ["resnet_inception"] ["resnet_inception"] (1/2) (1/2) 11 11 true true
    rfl rfl rfl rfl rfl rfl

/-- Claim C5 counterexample: a reenactment job whose collaborator raises
`"boom"` answers `(None, None)` — a response that carries no textual
message at all, unlike the other two operations. -/
theorem reenact_error_message_counterexample :
    reenact_face [] (Except.error "boom") "face.png" "drive.mp4" "tps" = (none, none) :=
  rfl

/-- Claim C5 (amended): every collaborator failure is caught at the
orchestration boundary and turned into an ordinary response — `detect_faces`
and `detect_deepfakes` embed the exception text in their message,
`reenact_face` answers `(None, None)` without any message. -/
theorem errors_caught_at_boundary (fs : List String) (e : String) :
    (∀ (img : Option String) (model p : String), img = some p → p ≠ "" → p ∈ fs →
      detect_faces fs (Except.ok ()) (Except.error e) img model =
        (none, none, "Error: " ++ e)) ∧
    (∀ (detOut : Except String (List Detection)) (img : Option String) (model p : String),
      img = some p → p ≠ "" → p ∈ fs →
      detect_faces fs (Except.error e) detOut img model =
        (none, none, "Error creating detector \x27" ++ model ++ "\x27: " ++ e)) ∧
    (∀ (img vid : Option String) (models : List String) (th : ℚ) (nf : ℕ)
      (m : String) (t : MediaType),
      selectMedia fs img vid = some (m, t) → mkModelConfigs models ≠ [] →
      detect_deepfakes fs (Except.error e) img vid models th nf =
        (none, pipelineErrMsg e)) ∧
    (∀ (src drv mdl : String),
      reenact_face fs (Except.error e) src drv mdl = (none, none)) := by
  refine ⟨?_, ?_, ?_, ?_⟩
  · intro img model p hp hne hmem
    subst hp
    simp only [detect_faces]
    rw [if_neg hne, if_neg (not_not_intro hmem)]
  · intro detOut img model p hp hne hmem
    subst hp
    simp only [detect_faces]
    rw [if_neg hne, if_neg (not_not_intro hmem)]
  · intro img vid models th nf m t hsel hcfg
    unfold detect_deepfakes
    rw [hsel]
    simp [hcfg]
  · intro src drv mdl
    rfl

/-- Witness for C5 (amended): each conversion at a concrete failing job. -/
theorem errors_caught_at_boundary_witness :
    detect_faces ["img.png"] (Except.ok ()) (Except.error "boom")
      (some "img.png") "mediapipe" = (none, none, "Error: boom") ∧
    detect_deepfakes ["a.png"] (Except.error "boom") (some "a.png") none
      ["efficientnet"] (1/2) 11 = (none, pipelineErrMsg "boom") ∧
    reenact_face [] (Except.error "boom") "face.png" "drive.mp4" "tps" = (none, none) :=
  ⟨(errors_caught_at_boundary ["img.png"] "boom").1 (some "img.png") "mediapipe"
      "img.png" rfl (by decide) (by decide),
    (errors_caught_at_boundary ["a.png"] "boom").2.2.1 (some "a.png") none
      ["efficientnet"] (1/2) 11 "a.png" MediaType.image (by decide) (by decide),
    (errors_caught_at_boundary [] "boom").2.2.2 "face.png" "drive.mp4" "tps"⟩

/-- Claim C6: the comparison-video locator tries the exact name, then the
two glob fallbacks, in the output directory first and in the result-path
directory only when the output directory had no match; the earliest
matching pattern's first hit wins and a complete miss yields `none`; the
annotated-image locator likewise returns the first existing candidate —
falling back to the later naming variants when the earlier ones are absent
— and `none` when no candidate exists. -/
theorem artifact_locator_priority (fs : List String) (sdir rdir s d folder iname : String) :
    (globDir fs sdir (exactComparisonName s d) = [] →
      globDir fs sdir (sourceComparisonGlob s) = [] →
      globDir fs sdir genericComparisonGlob = [] →
      globDir fs rdir (exactComparisonName s d) = [] →
      globDir fs rdir (sourceComparisonGlob s) = [] →
      globDir fs rdir genericComparisonGlob = [] →
      findComparison fs sdir rdir (comparisonCandidates s d) = none) ∧
    (∀ f t, globDir fs sdir (exactComparisonName s d) = f :: t →
      findComparison fs sdir rdir (comparisonCandidates s d) = some f) ∧
    (∀ f t, globDir fs sdir (exactComparisonName s d) = [] →
      globDir fs sdir (sourceComparisonGlob s) = f :: t →
      findComparison fs sdir rdir (comparisonCandidates s d) = some f) ∧
    (∀ f t, globDir fs sdir (exactComparisonName s d) = [] →
      globDir fs sdir (sourceComparisonGlob s) = [] →
      globDir fs sdir genericComparisonGlob = f :: t →
      findComparison fs sdir rdir (comparisonCandidates s d) = some f) ∧
    (∀ f t, globDir fs sdir (exactComparisonName s d) = [] →
      globDir fs sdir (sourceComparisonGlob s) = [] →
      globDir fs sdir genericComparisonGlob = [] →
      globDir fs rdir (exactComparisonName s d) = f :: t →
      findComparison fs sdir rdir (comparisonCandidates s d) = some f) ∧
    (∀ f t, globDir fs sdir (exactComparisonName s d) = [] →
      globDir fs sdir (sourceComparisonGlob s) = [] →
      globDir fs sdir genericComparisonGlob = [] →
      globDir fs rdir (exactComparisonName s d) = [] →
      globDir fs rdir (sourceComparisonGlob s) = f :: t →
      findComparison fs sdir rdir (comparisonCandidates s d) = some f) ∧
    (∀ f t, globDir fs sdir (exactComparisonName s d) = [] →
      globDir fs sdir (sourceComparisonGlob s) = [] →
      globDir fs sdir genericComparisonGlob = [] →
      globDir fs rdir (exactComparisonName s d) = [] →
      globDir fs rdir (sourceComparisonGlob s) = [] →
      globDir fs rdir genericComparisonGlob = f :: t →
      findComparison fs sdir rdir (comparisonCandidates s d) = some f) ∧
    ((∀ n ∈ annotatedCandidates iname, (folder ++ "/" ++ n) ∉ fs) →
      findAnnotated fs folder iname = none) ∧
    (∀ n1 rest, annotatedCandidates iname = n1 :: rest → (folder ++ "/" ++ n1) ∈ fs →
      findAnnotated fs folder iname = some (folder ++ "/" ++ n1)) ∧
    (∀ n1 n2 rest, annotatedCandidates iname = n1 :: n2 :: rest →
      (folder ++ "/" ++ n1) ∉ fs → (folder ++ "/" ++ n2) ∈ fs →
      findAnnotated fs folder iname = some (folder ++ "/" ++ n2)) ∧
    (∀ n1 n2 n3 rest, annotatedCandidates iname = n1 :: n2 :: n3 :: rest →
      (folder ++ "/" ++ n1) ∉ fs → (folder ++ "/" ++ n2) ∉ fs →
      (folder ++ "/" ++ n3) ∈ fs →
      findAnnotated fs folder iname = some (folder ++ "/" ++ n3)) := by
  refine ⟨?_, ?_, ?_, ?_, ?_, ?_, ?_, ?_, ?_, ?_, ?_⟩
  · intro h1 h2 h3 h4 h5 h6
    simp only [findComparison, comparisonCandidates, searchCandidates, h1, h2, h3, h4, h5, h6]
  · intro f t h1
    simp only [findComparison, comparisonCandidates, searchCandidates, h1]
  · intro f t h1 h2
    simp only [findComparison, comparisonCandidates, searchCandidates, h1, h2]
  · intro f t h1 h2 h3
    simp only [findComparison, comparisonCandidates, searchCandidates, h1, h2, h3]
  · intro f t h1 h2 h3 h4
    simp only [findComparison, comparisonCandidates, searchCandidates, h1, h2, h3, h4]
  · intro f t h1 h2 h3 h4 h5
    simp only [findComparison, comparisonCandidates, searchCandidates, h1, h2, h3, h4, h5]
  · intro f t h1 h2 h3 h4 h5 h6
    simp only [findComparison, comparisonCandidates, searchCandidates,
      h1, h2, h3, h4, h5, h6]
  · intro h
    unfold findAnnotated
    generalize annotatedCandidates iname = cands at h ⊢
    induction cands with
    | nil => rfl
    | cons n rest ih =>
      unfold findFirstExisting
      rw [if_neg (h n (by simp))]
      exact ih (fun n' hn' => h n' (by simp [hn']))
  · intro n1 rest hc hmem
    unfold findAnnotated
    rw [hc]
    unfold findFirstExisting
    rw [if_pos hmem]
  · intro n1 n2 rest hc h1 h2
    unfold findAnnotated
    rw [hc]
    simp only [findFirstExisting]
    rw [if_neg h1, if_pos h2]
  · intro n1 n2 n3 rest hc h1 h2 h3
    unfold findAnnotated
    rw [hc]
    simp only [findFirstExisting]
    rw [if_neg h1, if_neg h2, if_pos h3]

/-- Witness for C6: the TPS comparison file is found by the exact pattern,
an empty filesystem yields `none`, the annotated-image search finds the
`_annotated` candidate, and falls back to the `_detected` variant when
`_annotated` is absent. -/
theorem artifact_locator_priority_witness :
    findComparison ["out/comparison_face_by_drive.mp4"] "out" "up"
      (comparisonCandidates "face" "drive") = some "out/comparison_face_by_drive.mp4" ∧
    findComparison [] "out" "up" (comparisonCandidates "face" "drive") = none ∧
    findAnnotated ["dir/img_annotated.png"] "dir" "img.png" = some "dir/img_annotated.png" ∧
    findAnnotated ["dir/img_detected.png"] "dir" "img.png" = some "dir/img_detected.png" :=
  ⟨(artifact_locator_priority ["out/comparison_face_by_drive.mp4"] "out" "up"
      "face" "drive" "dir" "img.png").2.1 "out/comparison_face_by_drive.mp4" [] (by decide),
    (artifact_locator_priority [] "out" "up" "face" "drive" "dir" "img.png").1
      (by decide) (by decide) (by decide) (by decide) (by decide) (by decide),
    (artifact_locator_priority ["dir/img_annotated.png"] "out" "up" "face" "drive"
      "dir" "img.png").2.2.2.2.2.2.2.2.1 "img_annotated.png"
      ["img_detected.png", "img_detection.png"] (by decide) (by decide),
    (artifact_locator_priority ["dir/img_detected.png"] "out" "up" "face" "drive"
      "dir" "img.png").2.2.2.2.2.2.2.2.2.1 "img_annotated.png" "img_detected.png"
      ["img_detection.png"] (by decide) (by decide) (by decide)⟩

/-- Claim C7 counterexample: at threshold 4/5 with a deepfake verdict the
tier function yields the highest tier, yet the report of that very job
contains neither the word RISK nor the tier icon — `get_risk_level` is
never called when the report is assembled. -/
theorem risk_tier_absent_from_report :
    get_risk_level (avgConfidence true (4/5)) true = "🔴 **HIGH RISK**" ∧
    strContainsSub ((detect_deepfakes ["a.png"] (Except.ok true) (some "a.png") none
      ["resnet_inception", "efficientnet"] (4/5) 11).2) "RISK" = false ∧
    strContainsSub ((detect_deepfakes ["a.png"] (Except.ok true) (some "a.png") none
      ["resnet_inception", "efficientnet"] (4/5) 11).2) "🔴" = false :=
  ⟨by with_unfolding_all decide, by with_unfolding_all decide, by with_unfolding_all decide⟩

/-- Claim C7 (amended): `get_risk_level` derives the tier from the
confidence by the fixed cutoffs — at least 4/5 the highest tier, at least
3/5 the medium tier, otherwise the low tier, with the label set chosen by
verdict polarity — and at confidence 4/5 with a deepfake verdict it yields
the highest tier; but the generated report never includes this tier, since
`get_risk_level` is defined and never invoked. -/
theorem risk_level_cutoffs (c : ℚ) :
    (4/5 ≤ c →
      get_risk_level c true = "🔴 **HIGH RISK**" ∧
      get_risk_level c false = "🟢 **VERY CONFIDENT**") ∧
    (3/5 ≤ c → c < 4/5 →
      get_risk_level c true = "🟡 **MEDIUM RISK**" ∧
      get_risk_level c false = "🟡 **CONFIDENT**") ∧
    (c < 3/5 →
      get_risk_level c true = "🟠 **LOW RISK**" ∧
      get_risk_level c false = "🟠 **UNCERTAIN**") ∧
    get_risk_level (4/5) true = "🔴 **HIGH RISK**" := by
  refine ⟨fun h => ?_, fun h1 h2 => ?_, fun h => ?_, ?_⟩
  · simp [get_risk_level, h]
  · have h45 : ¬ (c ≥ 4/5) := not_le.mpr h2
    simp [get_risk_level, h45, h1]
  · have h45 : ¬ (c ≥ 4/5) := not_le.mpr (lt_of_lt_of_le h (by norm_num))
    have h35 : ¬ (c ≥ 3/5) := not_le.mpr h
    simp [get_risk_level, h45, h35]
  · norm_num [get_risk_level]

/-- Witness for C7 (amended): one representative per tier. -/
theorem risk_level_cutoffs_witness :
    get_risk_level (4/5) true = "🔴 **HIGH RISK**" ∧
    get_risk_level (7/10) false = "🟡 **CONFIDENT**" ∧
    get_risk_level (1/2) true = "🟠 **LOW RISK**" :=
  ⟨((risk_level_cutoffs (4/5)).1 (by norm_num)).1,
    ((risk_level_cutoffs (7/10)).2.1 (by norm_num) (by norm_num)).2,
    ((risk_level_cutoffs (1/2)).2.2.1 (by norm_num)).1⟩

end MukhApp
